import Mathlib

/-!
Verification of `base::DiscardableSharedMemory`
(src/src/base/memory/discardable_shared_memory.h).

The repository ships only the class header; its member-function bodies are
not under src/. Following the header's documentation comments and the
specification, the operations are modelled here as pure transition
functions on an explicit per-process state (`DiscardableSharedMemory`)
together with an explicit cross-process segment state (`Segment`). Wall
clock time is an opaque value type in the original; here `Time` is `Nat`
with `0` playing the role of the null time (`base::Time()`).
-/

namespace DSMModel

/-- Modelled from the spec: wall-clock time is consumed as an opaque value
type; the null time (`base::Time()`) is represented by `0`. -/
abbrev Time := Nat

/-- Modelled from the spec: the platform page granularity returned by
`GetPageSize()`; a fixed positive constant here. -/
def pageSize : Nat := 4096

/-- Modelled from the spec: the raw shared-memory primitive
(`base::SharedMemory`) as the core sees it -- a transferable handle
(`handle_id = 0` meaning "no handle held") and whether the segment is
currently mapped into this process's address space. -/
structure SharedMemory where
  handle_id : Nat
  memory_mapped : Bool
deriving Repr, DecidableEq

/-- Modelled from the spec: the per-process protocol state of one
`DiscardableSharedMemory` object instance: the wrapped raw shared memory,
`mapped_size_`, `locked_page_count_`, the (debug) `locked_pages_` set of
page indices, and `last_known_usage_`. -/
structure DiscardableSharedMemory where
  shared_memory_ : SharedMemory
  mapped_size_ : Nat
  locked_page_count_ : Nat
  locked_pages_ : Finset Nat
  last_known_usage_ : Time
deriving DecidableEq

/-- Modelled from the spec: the default-constructed object -- no handle,
nothing mapped, nothing locked, null usage time. -/
def DiscardableSharedMemory.init : DiscardableSharedMemory :=
  { shared_memory_ := { handle_id := 0, memory_mapped := false }
    mapped_size_ := 0
    locked_page_count_ := 0
    locked_pages_ := ∅
    last_known_usage_ := 0 }

/-- Modelled from the spec: the cross-process state of the one physical
segment, as observed through the platform: whether the content is still
resident, the actual (shared) last usage timestamp, and whether some other
process currently holds the segment locked. -/
structure Segment where
  resident : Bool
  usage : Time
  othersLocked : Bool
deriving Repr, DecidableEq

/-- Modelled from the spec: the segment right after creation -- resident,
null shared usage timestamp, not locked by any other process. -/
def Segment.fresh : Segment :=
  { resident := true, usage := 0, othersLocked := false }

/-- Modelled from the spec: round `size` up to the allocation granularity
(a multiple of the page size), giving the actual mapped size, which may be
larger than requested. -/
def alignToPageSize (size : Nat) : Nat :=
  ((size + pageSize - 1) / pageSize) * pageSize

/-- Modelled from the spec: the set of page indices covered by a lock
range `(offset, length)`; passing `0` for `length` means "everything
onward" up to the end of the mapping. -/
def rangePages (mappedSize offset length : Nat) : Finset Nat :=
  let endOff := if length = 0 then mappedSize else offset + length
  Finset.Ico (offset / pageSize) ((endOff + pageSize - 1) / pageSize)

/-- Modelled from the spec: `CreateAndMap(size)` allocates and maps a new
segment of at least `size` bytes in a locked initial state (every page
locked). The OS-level outcome is the `os` argument: `none` means the
creation/mapping failed at the OS level, in which case no resources are
held and no partial state is retained; `some h` means the OS produced
handle `h`. Returns the resulting object state and the boolean result. -/
def CreateAndMap (size : Nat) (os : Option Nat) :
    DiscardableSharedMemory × Bool :=
  match os with
  | none => (DiscardableSharedMemory.init, false)
  | some h =>
    let m := alignToPageSize size
    ({ shared_memory_ := { handle_id := h, memory_mapped := true }
       mapped_size_ := m
       locked_page_count_ := m / pageSize
       locked_pages_ := Finset.range (m / pageSize)
       last_known_usage_ := 0 }, true)

/-- Modelled from the spec: the platform's answer to a pin (lock) attempt.
`success fresh` means the pages were pinned and the memory is resident,
with `fresh` the platform-supplied actual-usage timestamp; `purged` means
the memory was already purged (by this or another process); `stale actual`
means the platform refused because the caller's last-known-usage timestamp
is out of date, `actual` being the real shared usage timestamp. -/
inductive LockOutcome where
  | success (fresh : Time)
  | purged
  | stale (actual : Time)
deriving Repr, DecidableEq

/-- Modelled from the spec: `Lock(offset, length)` pins an (unlocked,
page-aligned) range. On success the range's pages become locked,
`locked_page_count_` grows by the range's page count, and
`last_known_usage_` is refreshed to `now` or to the fresher
platform-supplied timestamp; returns true. On failure because the memory
was purged the lock state is unchanged and `last_known_usage_` becomes the
null time (per the header: updated to 0 when not resident); returns false.
On failure because the timestamp is stale the lock state is unchanged and
`last_known_usage_` is refreshed to the actual shared timestamp; returns
false. -/
def Lock (s : DiscardableSharedMemory) (offset length : Nat) (now : Time)
    (outcome : LockOutcome) : DiscardableSharedMemory × Bool :=
  let pages := rangePages s.mapped_size_ offset length
  match outcome with
  | .success fresh =>
    ({ s with
        locked_pages_ := s.locked_pages_ ∪ pages
        locked_page_count_ := s.locked_page_count_ + pages.card
        last_known_usage_ := max now fresh }, true)
  | .purged =>
    ({ s with last_known_usage_ := 0 }, false)
  | .stale actual =>
    ({ s with last_known_usage_ := actual }, false)

/-- Modelled from the spec: `Unlock(offset, length)` releases the pin on a
previously locked range; its pages become unlocked/purgeable and
`locked_page_count_` drops by the range's page count. No return value. -/
def Unlock (s : DiscardableSharedMemory) (offset length : Nat) :
    DiscardableSharedMemory :=
  let pages := rangePages s.mapped_size_ offset length
  { s with
      locked_pages_ := s.locked_pages_ \ pages
      locked_page_count_ := s.locked_page_count_ - pages.card }

/-- Modelled from the spec: `Purge(current_time)`. If any page is locked
by this object, purge is refused and `last_known_usage_` is advanced to
`current_time`. Otherwise, if another process holds the segment locked the
purge is likewise refused with `last_known_usage_` set to `current_time`;
if the shared usage timestamp disagrees with `last_known_usage_` the purge
is refused and `last_known_usage_` is updated to the actual shared
timestamp (so that a second call can succeed); otherwise the purge
succeeds: the segment becomes non-resident, the shared timestamp and
`last_known_usage_` reset to the null time, and the call returns true. -/
def Purge (s : DiscardableSharedMemory) (seg : Segment) (current_time : Time) :
    DiscardableSharedMemory × Segment × Bool :=
  if s.locked_page_count_ ≠ 0 then
    ({ s with last_known_usage_ := current_time }, seg, false)
  else if seg.othersLocked then
    ({ s with last_known_usage_ := current_time }, seg, false)
  else if seg.usage ≠ s.last_known_usage_ then
    ({ s with last_known_usage_ := seg.usage }, seg, false)
  else
    ({ s with last_known_usage_ := 0 },
     { seg with resident := false, usage := 0 }, true)

/-- Modelled from the spec: `PurgeAndTruncate(current_time)` has the same
preconditions and outcomes as `Purge`; the additional eager return of
physical pages to the OS is platform-dependent and outside the modelled
state. -/
def PurgeAndTruncate (s : DiscardableSharedMemory) (seg : Segment)
    (current_time : Time) : DiscardableSharedMemory × Segment × Bool :=
  Purge s seg current_time

/-- Modelled from the spec: `IsMemoryResident()` is a read-only probe of
whether the mapping currently reads as live content; it is modelled as
returning the answer together with the (unchanged) object and segment
states, so that its frame property is expressible. -/
def IsMemoryResident (s : DiscardableSharedMemory) (seg : Segment) :
    Bool × DiscardableSharedMemory × Segment :=
  (seg.resident, s, seg)

/-- Modelled from the spec: `Close()` unmaps and releases the local
resources (handle and mapping); it is safe to call repeatedly and on a
never-mapped object. -/
def Close (s : DiscardableSharedMemory) : DiscardableSharedMemory :=
  { s with shared_memory_ := { handle_id := 0, memory_mapped := false } }

/-- Modelled from the spec: validity of the pointer returned by
`memory()` -- valid exactly while the segment is mapped locally. -/
def memoryIsValid (s : DiscardableSharedMemory) : Bool :=
  s.shared_memory_.memory_mapped

/-- The bookkeeping invariant relating `locked_page_count_` to the debug
`locked_pages_` set: the count equals the number of distinct locked
pages. -/
def Inv (s : DiscardableSharedMemory) : Prop :=
  s.locked_page_count_ = s.locked_pages_.card

instance (s : DiscardableSharedMemory) : Decidable (Inv s) := by
  unfold Inv; infer_instance

/-- C1: in every state in which at least one page is Locked (the debug
locked-page set is nonempty; the bookkeeping invariant ties it to
`locked_page_count_`), `Purge current_time` returns failure and sets
`last_known_usage_` to the supplied `current_time`. -/
theorem C1_purge_refused_when_any_page_locked
    (s : DiscardableSharedMemory) (seg : Segment) (current_time : Time)
    (hinv : Inv s) (hne : s.locked_pages_.Nonempty) :
    (Purge s seg current_time).2.2 = false ∧
    (Purge s seg current_time).1.last_known_usage_ = current_time := by
  have hcount : s.locked_page_count_ ≠ 0 := by
    have h1 := hne.card_pos
    have h2 : s.locked_page_count_ = s.locked_pages_.card := hinv
    omega
  simp [Purge, hcount]

/-- C1 witness: a concrete state with page 0 locked. -/
theorem C1_purge_refused_when_any_page_locked_witness :
    Inv ⟨⟨1, true⟩, 4096, 1, {0}, 3⟩ ∧
    (⟨⟨1, true⟩, 4096, 1, {0}, 3⟩ :
      DiscardableSharedMemory).locked_pages_.Nonempty ∧
    (Purge ⟨⟨1, true⟩, 4096, 1, {0}, 3⟩ ⟨true, 3, false⟩ 7).2.2 = false ∧
    (Purge ⟨⟨1, true⟩, 4096, 1, {0}, 3⟩
      ⟨true, 3, false⟩ 7).1.last_known_usage_ = 7 :=
  ⟨by decide, by decide,
    C1_purge_refused_when_any_page_locked _ _ _ (by decide) (by decide)⟩

/-- C2: on a mapped object with no page locked by this object, with no
other process holding the segment locked and no intervening lock between
the two calls, `Purge t1` followed by `Purge t2` with `t1 ≤ t2` succeeds
by the second call. -/
theorem C2_purge_twice_converges
    (s : DiscardableSharedMemory) (seg : Segment) (t1 t2 : Time)
    (hcount : s.locked_page_count_ = 0) (hothers : seg.othersLocked = false)
    (ht : t1 ≤ t2) :
    (Purge (Purge s seg t1).1 (Purge s seg t1).2.1 t2).2.2 = true := by
  by_cases h : seg.usage = s.last_known_usage_ <;>
    simp [Purge, hcount, hothers, h]

/-- C2 witness: a stale-timestamp object purged twice. -/
theorem C2_purge_twice_converges_witness :
    (⟨⟨1, true⟩, 4096, 0, ∅, 0⟩ :
      DiscardableSharedMemory).locked_page_count_ = 0 ∧
    (⟨true, 9, false⟩ : Segment).othersLocked = false ∧
    (3 : Time) ≤ 4 ∧
    (Purge (Purge ⟨⟨1, true⟩, 4096, 0, ∅, 0⟩ ⟨true, 9, false⟩ 3).1
      (Purge ⟨⟨1, true⟩, 4096, 0, ∅, 0⟩ ⟨true, 9, false⟩ 3).2.1 4).2.2 =
        true :=
  ⟨by decide, by decide, by decide,
    C2_purge_twice_converges _ _ _ _ (by decide) (by decide) (by decide)⟩

/-- C3: when `Lock` fails because the memory was already purged, the lock
state of the (currently unlocked) range is unchanged -- it remains not
Locked -- and `last_known_usage_` is not advanced by the call. -/
theorem C3_lock_purged_failure_leaves_range_unlocked
    (s : DiscardableSharedMemory) (offset length : Nat) (now : Time)
    (hun : rangePages s.mapped_size_ offset length ∩ s.locked_pages_ = ∅) :
    (Lock s offset length now .purged).2 = false ∧
    (Lock s offset length now .purged).1.locked_pages_ = s.locked_pages_ ∧
    (Lock s offset length now .purged).1.locked_page_count_ =
      s.locked_page_count_ ∧
    rangePages (Lock s offset length now .purged).1.mapped_size_ offset
        length ∩ (Lock s offset length now .purged).1.locked_pages_ = ∅ ∧
    (Lock s offset length now .purged).1.last_known_usage_ ≤
      s.last_known_usage_ := by
  refine ⟨rfl, rfl, rfl, ?_, ?_⟩
  · simpa [Lock] using hun
  · simp [Lock]

/-- C3 witness: a purged-failure lock attempt on an unlocked range. -/
theorem C3_lock_purged_failure_leaves_range_unlocked_witness :
    rangePages (⟨⟨1, true⟩, 4096, 0, ∅, 7⟩ :
        DiscardableSharedMemory).mapped_size_ 0 0 ∩
      (⟨⟨1, true⟩, 4096, 0, ∅, 7⟩ :
        DiscardableSharedMemory).locked_pages_ = ∅ ∧
    (Lock ⟨⟨1, true⟩, 4096, 0, ∅, 7⟩ 0 0 5 .purged).2 = false ∧
    (Lock ⟨⟨1, true⟩, 4096, 0, ∅, 7⟩ 0 0 5 .purged).1.last_known_usage_ ≤
      (⟨⟨1, true⟩, 4096, 0, ∅, 7⟩ :
        DiscardableSharedMemory).last_known_usage_ :=
  ⟨by decide,
    (C3_lock_purged_failure_leaves_range_unlocked
      ⟨⟨1, true⟩, 4096, 0, ∅, 7⟩ 0 0 5 (by decide)).1,
    (C3_lock_purged_failure_leaves_range_unlocked
      ⟨⟨1, true⟩, 4096, 0, ∅, 7⟩ 0 0 5 (by decide)).2.2.2.2⟩

/-- C4: after every successful call to `Purge`, `last_known_usage_` is
the null/zero time and `IsMemoryResident` answers false. -/
theorem C4_successful_purge_resets_usage_and_residency
    (s : DiscardableSharedMemory) (seg : Segment) (t : Time)
    (h : (Purge s seg t).2.2 = true) :
    (Purge s seg t).1.last_known_usage_ = 0 ∧
    (IsMemoryResident (Purge s seg t).1 (Purge s seg t).2.1).1 = false := by
  unfold Purge at h ⊢
  split at h
  · simp at h
  · split at h
    · simp at h
    · split at h
      · simp at h
      · simp_all [IsMemoryResident]

/-- C4 witness: a fresh unlocked object is successfully purged. -/
theorem C4_successful_purge_resets_usage_and_residency_witness :
    (Purge DiscardableSharedMemory.init Segment.fresh 5).2.2 = true ∧
    (Purge DiscardableSharedMemory.init Segment.fresh 5).1.last_known_usage_
        = 0 ∧
    (IsMemoryResident (Purge DiscardableSharedMemory.init Segment.fresh 5).1
      (Purge DiscardableSharedMemory.init Segment.fresh 5).2.1).1 = false :=
  ⟨by decide,
    C4_successful_purge_resets_usage_and_residency _ _ _ (by decide)⟩

/-- C5: for every currently-unlocked page-aligned range, a successful
`Lock` makes the range Locked, refreshes `last_known_usage_` to the
current time or to the fresher platform-supplied timestamp, and returns
success. -/
theorem C5_lock_success_locks_range_and_refreshes_usage
    (s : DiscardableSharedMemory) (offset length : Nat) (now fresh : Time)
    (hoff : offset % pageSize = 0) (hlen : length % pageSize = 0)
    (hun : rangePages s.mapped_size_ offset length ∩ s.locked_pages_ = ∅) :
    (Lock s offset length now (.success fresh)).2 = true ∧
    rangePages s.mapped_size_ offset length ⊆
      (Lock s offset length now (.success fresh)).1.locked_pages_ ∧
    now ≤ (Lock s offset length now (.success fresh)).1.last_known_usage_ ∧
    ((Lock s offset length now (.success fresh)).1.last_known_usage_ = now ∨
     (Lock s offset length now (.success fresh)).1.last_known_usage_ =
       fresh) := by
  refine ⟨rfl, ?_, ?_, ?_⟩
  · simpa [Lock] using Finset.subset_union_right
  · simpa [Lock] using le_max_left now fresh
  · simpa [Lock] using max_choice now fresh

/-- C5 witness: locking the single page of an unlocked mapping. -/
theorem C5_lock_success_locks_range_and_refreshes_usage_witness :
    (0 : Nat) % pageSize = 0 ∧ (4096 : Nat) % pageSize = 0 ∧
    rangePages (⟨⟨1, true⟩, 4096, 0, ∅, 7⟩ :
        DiscardableSharedMemory).mapped_size_ 0 4096 ∩
      (⟨⟨1, true⟩, 4096, 0, ∅, 7⟩ :
        DiscardableSharedMemory).locked_pages_ = ∅ ∧
    (Lock ⟨⟨1, true⟩, 4096, 0, ∅, 7⟩ 0 4096 5 (.success 2)).2 = true ∧
    5 ≤ (Lock ⟨⟨1, true⟩, 4096, 0, ∅, 7⟩ 0 4096 5
      (.success 2)).1.last_known_usage_ :=
  ⟨by decide, by decide, by decide,
    (C5_lock_success_locks_range_and_refreshes_usage
      ⟨⟨1, true⟩, 4096, 0, ∅, 7⟩ 0 4096 5 2
      (by decide) (by decide) (by decide)).1,
    (C5_lock_success_locks_range_and_refreshes_usage
      ⟨⟨1, true⟩, 4096, 0, ∅, 7⟩ 0 4096 5 2
      (by decide) (by decide) (by decide)).2.2.1⟩

/-- C6: on a currently-unlocked range, `Lock` immediately followed by
`Unlock` of the same range leaves `mapped_size_` and the handle
unchanged, restores the locked-page set, and leaves the range unlocked,
hence eligible to be locked again. -/
theorem C6_lock_unlock_roundtrip_is_noop
    (s : DiscardableSharedMemory) (offset length : Nat) (now fresh : Time)
    (hun : rangePages s.mapped_size_ offset length ∩ s.locked_pages_ = ∅) :
    (Unlock (Lock s offset length now (.success fresh)).1 offset
        length).mapped_size_ = s.mapped_size_ ∧
    (Unlock (Lock s offset length now (.success fresh)).1 offset
        length).shared_memory_.handle_id = s.shared_memory_.handle_id ∧
    (Unlock (Lock s offset length now (.success fresh)).1 offset
        length).locked_pages_ = s.locked_pages_ ∧
    rangePages (Unlock (Lock s offset length now (.success fresh)).1 offset
        length).mapped_size_ offset length ∩
      (Unlock (Lock s offset length now (.success fresh)).1 offset
        length).locked_pages_ = ∅ := by
  have hdisj : Disjoint s.locked_pages_
      (rangePages s.mapped_size_ offset length) :=
    Finset.disjoint_iff_inter_eq_empty.mpr
      (by rw [Finset.inter_comm]; exact hun)
  have hset : (Unlock (Lock s offset length now (.success fresh)).1 offset
      length).locked_pages_ = s.locked_pages_ := by
    simp [Lock, Unlock, Finset.union_sdiff_cancel_right hdisj]
  refine ⟨rfl, rfl, hset, ?_⟩
  have hms : (Unlock (Lock s offset length now (.success fresh)).1 offset
      length).mapped_size_ = s.mapped_size_ := rfl
  rw [hms, hset]
  exact hun

/-- C6 witness: lock then unlock of the whole single-page mapping. -/
theorem C6_lock_unlock_roundtrip_is_noop_witness :
    rangePages (⟨⟨1, true⟩, 4096, 0, ∅, 7⟩ :
        DiscardableSharedMemory).mapped_size_ 0 0 ∩
      (⟨⟨1, true⟩, 4096, 0, ∅, 7⟩ :
        DiscardableSharedMemory).locked_pages_ = ∅ ∧
    (Unlock (Lock ⟨⟨1, true⟩, 4096, 0, ∅, 7⟩ 0 0 5
        (.success 2)).1 0 0).mapped_size_ = 4096 ∧
    (Unlock (Lock ⟨⟨1, true⟩, 4096, 0, ∅, 7⟩ 0 0 5
        (.success 2)).1 0 0).shared_memory_.handle_id = 1 :=
  ⟨by decide,
    (C6_lock_unlock_roundtrip_is_noop
      ⟨⟨1, true⟩, 4096, 0, ∅, 7⟩ 0 0 5 2 (by decide)).1,
    (C6_lock_unlock_roundtrip_is_noop
      ⟨⟨1, true⟩, 4096, 0, ∅, 7⟩ 0 0 5 2 (by decide)).2.1⟩

/-- C7: `CreateAndMap size` on OS failure returns false with the
default-constructed state (no resources, no partial state); on OS success
it returns true and the new mapping is in the locked initial state: every
page of the (at least `size` bytes large) mapping is locked. -/
theorem C7_create_and_map_failure_clean_success_locked
    (size h : Nat) :
    CreateAndMap size none = (DiscardableSharedMemory.init, false) ∧
    (CreateAndMap size (some h)).2 = true ∧
    (CreateAndMap size (some h)).1.locked_pages_ =
      Finset.range ((CreateAndMap size (some h)).1.mapped_size_ / pageSize) ∧
    (CreateAndMap size (some h)).1.locked_page_count_ =
      (CreateAndMap size (some h)).1.mapped_size_ / pageSize ∧
    size ≤ (CreateAndMap size (some h)).1.mapped_size_ ∧
    memoryIsValid (CreateAndMap size (some h)).1 = true := by
  refine ⟨rfl, rfl, rfl, rfl, ?_, rfl⟩
  show size ≤ alignToPageSize size
  unfold alignToPageSize pageSize
  have h1 := Nat.div_add_mod (size + 4096 - 1) 4096
  have h2 := Nat.mod_lt (size + 4096 - 1) (show 0 < 4096 by norm_num)
  omega

/-- C8: `Close` is idempotent, leaves the `memory()` pointer invalid, and
is a no-op on a never-mapped (default-constructed) object. -/
theorem C8_close_idempotent
    (s : DiscardableSharedMemory) :
    Close (Close s) = Close s ∧
    memoryIsValid (Close s) = false ∧
    Close DiscardableSharedMemory.init = DiscardableSharedMemory.init :=
  ⟨rfl, rfl, rfl⟩

/-- C9: `IsMemoryResident` is a pure probe: the object state and the
segment state after the call are exactly those before it; in particular
neither the lock state of any page nor `last_known_usage_` changes. -/
theorem C9_is_memory_resident_is_read_only
    (s : DiscardableSharedMemory) (seg : Segment) :
    (IsMemoryResident s seg).2.1 = s ∧
    (IsMemoryResident s seg).2.2 = seg ∧
    (IsMemoryResident s seg).2.1.locked_pages_ = s.locked_pages_ ∧
    (IsMemoryResident s seg).2.1.locked_page_count_ =
      s.locked_page_count_ ∧
    (IsMemoryResident s seg).2.1.last_known_usage_ = s.last_known_usage_ :=
  ⟨rfl, rfl, rfl, rfl, rfl⟩

/-- C10: every operation preserves the invariant that
`locked_page_count_` equals the cardinality of the debug `locked_pages_`
set (`Lock` under its unlocked-range precondition, `Unlock` under its
locked-range precondition), and `Purge` can return success only when
`locked_page_count_` is zero. -/
theorem C10_lock_count_invariant_preserved
    (s : DiscardableSharedMemory) (seg : Segment) (offset length : Nat)
    (now t : Time) (hinv : Inv s) :
    (rangePages s.mapped_size_ offset length ∩ s.locked_pages_ = ∅ →
      ∀ outcome, Inv (Lock s offset length now outcome).1) ∧
    (rangePages s.mapped_size_ offset length ⊆ s.locked_pages_ →
      Inv (Unlock s offset length)) ∧
    Inv (Purge s seg t).1 ∧
    Inv (PurgeAndTruncate s seg t).1 ∧
    Inv (Close s) ∧
    ((Purge s seg t).2.2 = true → s.locked_page_count_ = 0) := by
  have hc : s.locked_page_count_ = s.locked_pages_.card := hinv
  refine ⟨?_, ?_, ?_, ?_, hinv, ?_⟩
  · intro hun outcome
    cases outcome with
    | success fresh =>
      have hdisj : Disjoint s.locked_pages_
          (rangePages s.mapped_size_ offset length) :=
        Finset.disjoint_iff_inter_eq_empty.mpr
          (by rw [Finset.inter_comm]; exact hun)
      show s.locked_page_count_ +
          (rangePages s.mapped_size_ offset length).card =
        (s.locked_pages_ ∪ rangePages s.mapped_size_ offset length).card
      rw [Finset.card_union_of_disjoint hdisj, hc]
    | purged => exact hinv
    | stale actual => exact hinv
  · intro hsub
    show s.locked_page_count_ -
        (rangePages s.mapped_size_ offset length).card =
      (s.locked_pages_ \ rangePages s.mapped_size_ offset length).card
    rw [Finset.card_sdiff hsub, hc]
  · unfold Purge
    split
    · exact hinv
    · split
      · exact hinv
      · split
        · exact hinv
        · exact hinv
  · unfold PurgeAndTruncate Purge
    split
    · exact hinv
    · split
      · exact hinv
      · split
        · exact hinv
        · exact hinv
  · intro hsucc
    unfold Purge at hsucc
    split at hsucc
    · simp at hsucc
    · omega

/-- C10 witness: the freshly created single-page mapping satisfies the
invariant and all operations keep it. -/
theorem C10_lock_count_invariant_preserved_witness :
    Inv ⟨⟨1, true⟩, 4096, 1, {0}, 3⟩ ∧
    Inv (Purge ⟨⟨1, true⟩, 4096, 1, {0}, 3⟩ ⟨true, 3, false⟩ 6).1 ∧
    ((Purge ⟨⟨1, true⟩, 4096, 1, {0}, 3⟩ ⟨true, 3, false⟩ 6).2.2 = true →
      (⟨⟨1, true⟩, 4096, 1, {0}, 3⟩ :
        DiscardableSharedMemory).locked_page_count_ = 0) :=
  ⟨by decide,
    (C10_lock_count_invariant_preserved ⟨⟨1, true⟩, 4096, 1, {0}, 3⟩
      ⟨true, 3, false⟩ 0 0 4 6 (by decide)).2.2.1,
    (C10_lock_count_invariant_preserved ⟨⟨1, true⟩, 4096, 1, {0}, 3⟩
      ⟨true, 3, false⟩ 0 0 4 6 (by decide)).2.2.2.2.2⟩

end DSMModel
